import Mathlib

/-!
Shallow embedding of the chezmoi v2 target-state reconciliation core
(src/v2/chezmoi/targetstateentry.go).

Target-state entries (Absent, Dir, File, Script, Symlink) are embedded as
structures; the fallible lazy content / linkname accessors become values of
`Except Error _`; the external `System` collaborator becomes an oracle
structure fixing the result of every possible call, and each `Apply` returns
both its `Except Error Unit` outcome and the ordered list of `System` calls
it performed.  Types that live in files of the repository outside the given
source (lazyContents, lazyLinkname, the DestStateEntry variants, the System
interface, the once-script bucket constant, SHA-256 and JSON marshalling)
are modelled from the spec, as marked on each definition.
-/

namespace Chezmoi

/-- Errors are opaque to this core; modelled as strings. -/
abbrev Error := String

/-- Byte strings, modelled as lists of naturals. -/
abbrev Bytes := List Nat

/-- File permission bits (os.FileMode), modelled as a natural number. -/
abbrev Perm := Nat

/-- Modelled from the spec: the cryptographic content checksum (SHA-256).
The claims depend only on the digest being a deterministic function of the
content bytes, so it is modelled as the byte list itself (which is trivially
injective, satisfying the spec's collision-freedom expectation). -/
def sha256 (bs : Bytes) : Bytes := bs

/-- Lowercase hexadecimal digit for a value below 16. -/
def hexDigit (n : Nat) : Char :=
  if n < 10 then Char.ofNat (48 + n) else Char.ofNat (87 + n)

/-- Two lowercase hex characters for one byte (as in hex.EncodeToString). -/
def hexEncodeByte (b : Nat) : String :=
  String.mk [hexDigit (b / 16 % 16), hexDigit (b % 16)]

/-- Modelled from the spec: hex.EncodeToString over a byte list. -/
def hexEncodeBytes (bs : Bytes) : String :=
  String.join (bs.map hexEncodeByte)

instance {ε α : Type} [DecidableEq ε] [DecidableEq α] : DecidableEq (Except ε α) := fun a b =>
  match a, b with
  | Except.error e, Except.error f =>
      if h : e = f then isTrue (by rw [h])
      else isFalse (by intro hh; cases hh; exact h rfl)
  | Except.error _, Except.ok _ => isFalse (by intro h; cases h)
  | Except.ok _, Except.error _ => isFalse (by intro h; cases h)
  | Except.ok x, Except.ok y =>
      if h : x = y then isTrue (by rw [h])
      else isFalse (by intro hh; cases hh; exact h rfl)

/-- Modelled from the spec: lazyContents holds a fallible content source.
Caching makes repeated calls return the same result, so the pure model is a
single `Except` value; the checksum is derived from the content, so a
successful checksum implies the content itself resolves. -/
structure lazyContents where
  contentsFunc : Except Error Bytes
deriving DecidableEq

/-- Contents returns the resolved content bytes or the resolution error. -/
def lazyContents.Contents (lc : lazyContents) : Except Error Bytes :=
  lc.contentsFunc

/-- ContentsSHA256 returns the SHA-256 of the resolved content, or the
content resolution error. -/
def lazyContents.ContentsSHA256 (lc : lazyContents) : Except Error Bytes :=
  match lc.contentsFunc with
  | Except.error e => Except.error e
  | Except.ok contents => Except.ok (sha256 contents)

/-- Modelled from the spec: lazyLinkname holds a fallible link-target
source with the same laziness/caching discipline as lazyContents. -/
structure lazyLinkname where
  linknameFunc : Except Error String
deriving DecidableEq

/-- Linkname returns the resolved link target or the resolution error. -/
def lazyLinkname.Linkname (ll : lazyLinkname) : Except Error String :=
  ll.linknameFunc

/-- One call made to the external System collaborator. -/
inductive SysCall where
  | writeFile (path : String) (contents : Bytes) (perm : Perm)
  | chmod (path : String) (perm : Perm)
  | mkdir (path : String) (perm : Perm)
  | removeAll (path : String)
  | writeSymlink (linkname path : String)
  | runScript (name : String) (contents : Bytes)
  | get (bucket key : String)
  | set (bucket key value : String)
deriving DecidableEq

/-- Modelled from the spec: the System capability contract, as an oracle
fixing the outcome of every possible call (`some e` = the call fails with
`e`, `none` = it succeeds).  `getResult` yields the stored value or `none`
for absent; `now` models time.Now for the once-script executedAt stamp. -/
structure System where
  writeFileErr : String → Bytes → Perm → Option Error
  chmodErr : String → Perm → Option Error
  mkdirErr : String → Perm → Option Error
  removeAllErr : String → Option Error
  writeSymlinkErr : String → String → Option Error
  runScriptErr : String → Bytes → Option Error
  getResult : String → String → Except Error (Option String)
  setErr : String → String → String → Option Error
  now : Nat

/-- Outcome of System.WriteFile. -/
def System.WriteFile (s : System) (path : String) (contents : Bytes) (perm : Perm) :
    Except Error Unit :=
  match s.writeFileErr path contents perm with
  | some e => Except.error e
  | none => Except.ok ()

/-- Outcome of System.Chmod. -/
def System.Chmod (s : System) (path : String) (perm : Perm) : Except Error Unit :=
  match s.chmodErr path perm with
  | some e => Except.error e
  | none => Except.ok ()

/-- Outcome of System.Mkdir. -/
def System.Mkdir (s : System) (path : String) (perm : Perm) : Except Error Unit :=
  match s.mkdirErr path perm with
  | some e => Except.error e
  | none => Except.ok ()

/-- Outcome of System.RemoveAll. -/
def System.RemoveAll (s : System) (path : String) : Except Error Unit :=
  match s.removeAllErr path with
  | some e => Except.error e
  | none => Except.ok ()

/-- Outcome of System.WriteSymlink. -/
def System.WriteSymlink (s : System) (linkname path : String) : Except Error Unit :=
  match s.writeSymlinkErr linkname path with
  | some e => Except.error e
  | none => Except.ok ()

/-- Outcome of System.RunScript. -/
def System.RunScript (s : System) (name : String) (contents : Bytes) : Except Error Unit :=
  match s.runScriptErr name contents with
  | some e => Except.error e
  | none => Except.ok ()

/-- Outcome of System.Set. -/
def System.Set (s : System) (bucket key value : String) : Except Error Unit :=
  match s.setErr bucket key value with
  | some e => Except.error e
  | none => Except.ok ()

/-- A fallible computation together with the trace of System calls made. -/
abbrev SysResult (α : Type) := Except Error α × List SysCall

/-- Perform a WriteFile call: record it and return its outcome. -/
def sysWriteFile (s : System) (path : String) (contents : Bytes) (perm : Perm) :
    SysResult Unit :=
  (s.WriteFile path contents perm, [SysCall.writeFile path contents perm])

/-- Perform a Chmod call: record it and return its outcome. -/
def sysChmod (s : System) (path : String) (perm : Perm) : SysResult Unit :=
  (s.Chmod path perm, [SysCall.chmod path perm])

/-- Perform a Mkdir call: record it and return its outcome. -/
def sysMkdir (s : System) (path : String) (perm : Perm) : SysResult Unit :=
  (s.Mkdir path perm, [SysCall.mkdir path perm])

/-- Perform a RemoveAll call: record it and return its outcome. -/
def sysRemoveAll (s : System) (path : String) : SysResult Unit :=
  (s.RemoveAll path, [SysCall.removeAll path])

/-- Perform a WriteSymlink call: record it and return its outcome. -/
def sysWriteSymlink (s : System) (linkname path : String) : SysResult Unit :=
  (s.WriteSymlink linkname path, [SysCall.writeSymlink linkname path])

/-- Perform a RunScript call: record it and return its outcome. -/
def sysRunScript (s : System) (name : String) (contents : Bytes) : SysResult Unit :=
  (s.RunScript name contents, [SysCall.runScript name contents])

/-- Perform a Get call: record it and return its outcome. -/
def sysGet (s : System) (bucket key : String) : SysResult (Option String) :=
  (s.getResult bucket key, [SysCall.get bucket key])

/-- Perform a Set call: record it and return its outcome. -/
def sysSet (s : System) (bucket key value : String) : SysResult Unit :=
  (s.Set bucket key value, [SysCall.set bucket key value])

/-- Modelled from the spec: the destination-state variants (Absent, Dir,
File, Symlink), each exposing its path; Dir carries permissions, File its
permissions and fallible content (whose checksum the accessor derives),
Symlink its fallible link target. -/
inductive DestStateEntry where
  | absent (path : String)
  | dir (path : String) (perm : Perm)
  | file (path : String) (perm : Perm) (lc : lazyContents)
  | symlink (path : String) (ll : lazyLinkname)
deriving DecidableEq

/-- Path returns the destination entry's filesystem path. -/
def DestStateEntry.Path : DestStateEntry → String
  | DestStateEntry.absent path => path
  | DestStateEntry.dir path _ => path
  | DestStateEntry.file path _ _ => path
  | DestStateEntry.symlink path _ => path

/-- Modelled from the spec: Remove is a no-op for an absent destination and
a recursive RemoveAll of the path for every other variant. -/
def DestStateEntry.Remove (d : DestStateEntry) (s : System) : SysResult Unit :=
  match d with
  | DestStateEntry.absent _ => (Except.ok (), [])
  | _ => sysRemoveAll s d.Path

/-- A TargetStateAbsent represents the absence of an entry in the target
state. -/
structure TargetStateAbsent where
deriving DecidableEq

/-- A TargetStateDir represents the state of a directory in the target
state. -/
structure TargetStateDir where
  perm : Perm
  exact : Bool
deriving DecidableEq

/-- A TargetStateFile represents the state of a file in the target state. -/
structure TargetStateFile where
  contents_ : lazyContents
  perm : Perm
deriving DecidableEq

/-- A TargetStateScript represents the state of a script. -/
structure TargetStateScript where
  contents_ : lazyContents
  name : String
  once : Bool
deriving DecidableEq

/-- A TargetStateSymlink represents the state of a symlink in the target
state. -/
structure TargetStateSymlink where
  linkname_ : lazyLinkname
deriving DecidableEq

/-- Contents of the embedded lazyContents of a file target. -/
def TargetStateFile.Contents (t : TargetStateFile) : Except Error Bytes :=
  t.contents_.Contents

/-- ContentsSHA256 of the embedded lazyContents of a file target. -/
def TargetStateFile.ContentsSHA256 (t : TargetStateFile) : Except Error Bytes :=
  t.contents_.ContentsSHA256

/-- Contents of the embedded lazyContents of a script target. -/
def TargetStateScript.Contents (t : TargetStateScript) : Except Error Bytes :=
  t.contents_.Contents

/-- ContentsSHA256 of the embedded lazyContents of a script target. -/
def TargetStateScript.ContentsSHA256 (t : TargetStateScript) : Except Error Bytes :=
  t.contents_.ContentsSHA256

/-- Linkname of the embedded lazyLinkname of a symlink target. -/
def TargetStateSymlink.Linkname (t : TargetStateSymlink) : Except Error String :=
  t.linkname_.Linkname

/-- A scriptOnceState records the state of a script that should only be run
once. -/
structure scriptOnceState where
  Name : String
  ExecutedAt : Nat
deriving DecidableEq

/-- Modelled from the spec: json.Marshal of a scriptOnceState; total, since
marshalling this struct cannot fail. -/
def scriptOnceState.marshal (st : scriptOnceState) : String :=
  "\x7b\"name\":\"" ++ st.Name ++ "\",\"executedAt\":" ++ toString st.ExecutedAt ++ "\x7d"

/-- Modelled from the spec: the fixed bucket constant for the once-script
ledger. -/
def scriptOnceStateBucket : String := "scriptOnce"

/-- isEmpty reports whether data is empty after trimming whitespace
(len(bytes.TrimSpace(data)) == 0), modelled for ASCII bytes: every byte is
whitespace. -/
def isEmpty (data : Bytes) : Bool :=
  data.all (fun b => b = 32 || b = 9 || b = 10 || b = 11 || b = 12 || b = 13)

/-- Apply updates destStateEntry to match a TargetStateAbsent: no-op when
the destination is absent, otherwise RemoveAll of its path. -/
def TargetStateAbsent.Apply (_t : TargetStateAbsent) (s : System)
    (destStateEntry : DestStateEntry) : SysResult Unit :=
  match destStateEntry with
  | DestStateEntry.absent _ => (Except.ok (), [])
  | _ => sysRemoveAll s destStateEntry.Path

/-- Equal returns true iff destStateEntry is absent. -/
def TargetStateAbsent.Equal (_t : TargetStateAbsent) (destStateEntry : DestStateEntry) :
    Except Error Bool :=
  match destStateEntry with
  | DestStateEntry.absent _ => Except.ok true
  | _ => Except.ok false

/-- Evaluate for an absent target: trivial success. -/
def TargetStateAbsent.Evaluate (_t : TargetStateAbsent) : Except Error Unit :=
  Except.ok ()

/-- Apply updates destStateEntry to match a TargetStateDir: no-op when the
destination is a dir with matching permissions, Chmod when a dir with
different permissions, otherwise Remove then Mkdir. It does not recurse. -/
def TargetStateDir.Apply (t : TargetStateDir) (s : System)
    (destStateEntry : DestStateEntry) : SysResult Unit :=
  match destStateEntry with
  | DestStateEntry.dir path perm =>
      if perm = t.perm then (Except.ok (), [])
      else sysChmod s path t.perm
  | _ =>
      match destStateEntry.Remove s with
      | (Except.error e, tr) => (Except.error e, tr)
      | (Except.ok _, tr) =>
          let r := sysMkdir s destStateEntry.Path t.perm
          (r.1, tr ++ r.2)

/-- Equal returns true iff destStateEntry is a dir with identical
permissions. It does not recurse. -/
def TargetStateDir.Equal (t : TargetStateDir) (destStateEntry : DestStateEntry) :
    Except Error Bool :=
  match destStateEntry with
  | DestStateEntry.dir _ perm => Except.ok (perm = t.perm)
  | _ => Except.ok false

/-- Evaluate for a dir target: trivial success. -/
def TargetStateDir.Evaluate (_t : TargetStateDir) : Except Error Unit :=
  Except.ok ()

/-- Apply updates destStateEntry to match a TargetStateFile.  When the
destination is a file, both checksums are compared: on a match only a
permission difference triggers a Chmod; on a mismatch the code falls
through to WriteFile without any removal.  When the destination is not a
file it is removed first, then the full content is written. -/
def TargetStateFile.Apply (t : TargetStateFile) (s : System)
    (destStateEntry : DestStateEntry) : SysResult Unit :=
  match destStateEntry with
  | DestStateEntry.file path perm lc =>
      match lc.ContentsSHA256 with
      | Except.error e => (Except.error e, [])
      | Except.ok destContentsSHA256 =>
          match t.ContentsSHA256 with
          | Except.error e => (Except.error e, [])
          | Except.ok contentsSHA256 =>
              if destContentsSHA256 = contentsSHA256 then
                if perm = t.perm then (Except.ok (), [])
                else sysChmod s path t.perm
              else
                match t.Contents with
                | Except.error e => (Except.error e, [])
                | Except.ok contents => sysWriteFile s path contents t.perm
  | _ =>
      match destStateEntry.Remove s with
      | (Except.error e, tr) => (Except.error e, tr)
      | (Except.ok _, tr) =>
          match t.Contents with
          | Except.error e => (Except.error e, tr)
          | Except.ok contents =>
              let r := sysWriteFile s destStateEntry.Path contents t.perm
              (r.1, tr ++ r.2)

/-- Equal returns false when destStateEntry is not a file or permissions
differ; otherwise both checksums are resolved (propagating errors) and
compared. -/
def TargetStateFile.Equal (t : TargetStateFile) (destStateEntry : DestStateEntry) :
    Except Error Bool :=
  match destStateEntry with
  | DestStateEntry.file _ perm lc =>
      if perm ≠ t.perm then Except.ok false
      else
        match lc.ContentsSHA256 with
        | Except.error e => Except.error e
        | Except.ok destContentsSHA256 =>
            match t.ContentsSHA256 with
            | Except.error e => Except.error e
            | Except.ok contentsSHA256 =>
                Except.ok (destContentsSHA256 = contentsSHA256)
  | _ => Except.ok false

/-- Evaluate forces the file target's checksum computation. -/
def TargetStateFile.Evaluate (t : TargetStateFile) : Except Error Unit :=
  match t.ContentsSHA256 with
  | Except.error e => Except.error e
  | Except.ok _ => Except.ok ()

/-- The once-ledger lookup key: name + ":" + hex(SHA-256 of content). -/
def TargetStateScript.onceKey (name : String) (contentsSHA256 : Bytes) : String :=
  name ++ ":" ++ hexEncodeBytes contentsSHA256

/-- The shared tail of TargetStateScript.Apply after the once-ledger
lookup: read content, skip when empty, run the script, and (when once) set
the ledger record under key with the captured executedAt stamp. -/
def TargetStateScript.applyTail (t : TargetStateScript) (s : System)
    (key : String) (executedAt : Nat) : SysResult Unit :=
  match t.Contents with
  | Except.error e => (Except.error e, [])
  | Except.ok contents =>
      if isEmpty contents then (Except.ok (), [])
      else
        match sysRunScript s t.name contents with
        | (Except.error e, tr) => (Except.error e, tr)
        | (Except.ok _, tr) =>
            if t.once then
              let value := scriptOnceState.marshal ⟨t.name, executedAt⟩
              let r := sysSet s scriptOnceStateBucket key value
              (r.1, tr ++ r.2)
            else (Except.ok (), tr)

/-- Apply runs a TargetStateScript.  When once is set the ledger is queried
under name + ":" + hex(checksum): an existing record is an idempotent skip;
otherwise the script runs and a {name, executedAt} record is persisted
after success.  When once is not set the ledger is never touched. -/
def TargetStateScript.Apply (t : TargetStateScript) (s : System)
    (_destStateEntry : DestStateEntry) : SysResult Unit :=
  if t.once then
    match t.ContentsSHA256 with
    | Except.error e => (Except.error e, [])
    | Except.ok contentsSHA256 =>
        let key := TargetStateScript.onceKey t.name contentsSHA256
        match sysGet s scriptOnceStateBucket key with
        | (Except.error e, tr) => (Except.error e, tr)
        | (Except.ok (some _), tr) => (Except.ok (), tr)
        | (Except.ok none, tr) =>
            let r := t.applyTail s key s.now
            (r.1, tr ++ r.2)
  else
    t.applyTail s "" 0

/-- Equal for scripts: always true, independent of the destination state. -/
def TargetStateScript.Equal (_t : TargetStateScript) (_destStateEntry : DestStateEntry) :
    Except Error Bool :=
  Except.ok true

/-- Evaluate forces the script target's checksum computation. -/
def TargetStateScript.Evaluate (t : TargetStateScript) : Except Error Unit :=
  match t.ContentsSHA256 with
  | Except.error e => Except.error e
  | Except.ok _ => Except.ok ()

/-- The removal-and-write tail of TargetStateSymlink.Apply: resolve the
target linkname, Remove the destination, WriteSymlink. -/
def TargetStateSymlink.applyTail (t : TargetStateSymlink) (s : System)
    (destStateEntry : DestStateEntry) : SysResult Unit :=
  match t.Linkname with
  | Except.error e => (Except.error e, [])
  | Except.ok linkname =>
      match destStateEntry.Remove s with
      | (Except.error e, tr) => (Except.error e, tr)
      | (Except.ok _, tr) =>
          let r := sysWriteSymlink s linkname destStateEntry.Path
          (r.1, tr ++ r.2)

/-- Apply updates destStateEntry to match a TargetStateSymlink: no-op when
the destination is a symlink with the same link target, otherwise remove
whatever is there and write a new symlink. -/
def TargetStateSymlink.Apply (t : TargetStateSymlink) (s : System)
    (destStateEntry : DestStateEntry) : SysResult Unit :=
  match destStateEntry with
  | DestStateEntry.symlink _ ll =>
      match ll.Linkname with
      | Except.error e => (Except.error e, [])
      | Except.ok destLinkname =>
          match t.Linkname with
          | Except.error e => (Except.error e, [])
          | Except.ok linkname =>
              if destLinkname = linkname then (Except.ok (), [])
              else t.applyTail s destStateEntry
  | _ => t.applyTail s destStateEntry

/-- Equal returns false when destStateEntry is not a symlink; otherwise the
destination linkname is resolved (propagating its error), then the target
linkname is resolved — a failure there returns false with a nil error
(mirroring the source exactly) — and the two strings are compared. -/
def TargetStateSymlink.Equal (t : TargetStateSymlink) (destStateEntry : DestStateEntry) :
    Except Error Bool :=
  match destStateEntry with
  | DestStateEntry.symlink _ ll =>
      match ll.Linkname with
      | Except.error e => Except.error e
      | Except.ok destLinkname =>
          match t.Linkname with
          | Except.error _ => Except.ok false
          | Except.ok linkname => Except.ok (destLinkname = linkname)
  | _ => Except.ok false

/-- Evaluate forces the symlink target's linkname resolution. -/
def TargetStateSymlink.Evaluate (t : TargetStateSymlink) : Except Error Unit :=
  match t.Linkname with
  | Except.error e => Except.error e
  | Except.ok _ => Except.ok ()

/-- The TargetStateEntry interface: the sum of the five variants. -/
inductive TargetStateEntry where
  | absent (t : TargetStateAbsent)
  | dir (t : TargetStateDir)
  | file (t : TargetStateFile)
  | script (t : TargetStateScript)
  | symlink (t : TargetStateSymlink)
deriving DecidableEq

/-- Apply dispatch over the five target-state variants. -/
def TargetStateEntry.Apply (t : TargetStateEntry) (s : System)
    (destStateEntry : DestStateEntry) : SysResult Unit :=
  match t with
  | TargetStateEntry.absent t => t.Apply s destStateEntry
  | TargetStateEntry.dir t => t.Apply s destStateEntry
  | TargetStateEntry.file t => t.Apply s destStateEntry
  | TargetStateEntry.script t => t.Apply s destStateEntry
  | TargetStateEntry.symlink t => t.Apply s destStateEntry

/-- Equal dispatch over the five target-state variants. -/
def TargetStateEntry.Equal (t : TargetStateEntry) (destStateEntry : DestStateEntry) :
    Except Error Bool :=
  match t with
  | TargetStateEntry.absent t => t.Equal destStateEntry
  | TargetStateEntry.dir t => t.Equal destStateEntry
  | TargetStateEntry.file t => t.Equal destStateEntry
  | TargetStateEntry.script t => t.Equal destStateEntry
  | TargetStateEntry.symlink t => t.Equal destStateEntry

/-- Evaluate dispatch over the five target-state variants. -/
def TargetStateEntry.Evaluate (t : TargetStateEntry) : Except Error Unit :=
  match t with
  | TargetStateEntry.absent t => t.Evaluate
  | TargetStateEntry.dir t => t.Evaluate
  | TargetStateEntry.file t => t.Evaluate
  | TargetStateEntry.script t => t.Evaluate
  | TargetStateEntry.symlink t => t.Evaluate

/-- Whether an entry of the sum is the script variant. -/
def TargetStateEntry.isScript : TargetStateEntry → Bool
  | TargetStateEntry.script _ => true
  | _ => false

/-- Whether a System call is a ledger access (Get or Set). -/
def SysCall.isLedger : SysCall → Bool
  | SysCall.get _ _ => true
  | SysCall.set _ _ _ => true
  | _ => false

/-- Whether a System call is a RemoveAll. -/
def SysCall.isRemoveAll : SysCall → Bool
  | SysCall.removeAll _ => true
  | _ => false

/-- Whether a System call is a RunScript. -/
def SysCall.isRunScript : SysCall → Bool
  | SysCall.runScript _ _ => true
  | _ => false

/-- Whether a System call is a Set. -/
def SysCall.isSet : SysCall → Bool
  | SysCall.set _ _ _ => true
  | _ => false

/-- Whether a destination entry is the file variant. -/
def DestStateEntry.isFile : DestStateEntry → Bool
  | DestStateEntry.file _ _ _ => true
  | _ => false

/-- Whether a destination entry is the absent variant. -/
def DestStateEntry.isAbsent : DestStateEntry → Bool
  | DestStateEntry.absent _ => true
  | _ => false

/-- A fully succeeding System oracle with an empty ledger, used to
instantiate theorems on concrete inputs. -/
def okSystem : System where
  writeFileErr := fun _ _ _ => none
  chmodErr := fun _ _ => none
  mkdirErr := fun _ _ => none
  removeAllErr := fun _ => none
  writeSymlinkErr := fun _ _ => none
  runScriptErr := fun _ _ => none
  getResult := fun _ _ => Except.ok none
  setErr := fun _ _ _ => none
  now := 0

/-- A successful content resolution determines the checksum. -/
theorem lazyContents.sha256_of_contents (lc : lazyContents) (bs : Bytes)
    (h : lc.Contents = Except.ok bs) : lc.ContentsSHA256 = Except.ok (sha256 bs) := by
  unfold lazyContents.ContentsSHA256
  unfold lazyContents.Contents at h
  rw [h]

/-- C8: two TargetStateDir values that agree on permissions but differ in
the exact flag have identical Apply, Equal and Evaluate behaviour on every
System and destination state: the exact flag has no effect on any operation
of this entry. -/
theorem dir_exact_flag_irrelevant (p : Perm) (e1 e2 : Bool) (s : System)
    (d : DestStateEntry) :
    TargetStateDir.Apply ⟨p, e1⟩ s d = TargetStateDir.Apply ⟨p, e2⟩ s d ∧
    TargetStateDir.Equal ⟨p, e1⟩ d = TargetStateDir.Equal ⟨p, e2⟩ d ∧
    TargetStateDir.Evaluate ⟨p, e1⟩ = TargetStateDir.Evaluate ⟨p, e2⟩ := by
  refine ⟨?_, ?_, rfl⟩ <;> cases d <;> rfl

/-- C9: a TargetStateScript with once = false never touches the ledger:
its Apply trace contains no Get and no Set call. -/
theorem script_once_false_no_ledger (lc : lazyContents) (name : String)
    (s : System) (d : DestStateEntry) :
    ((TargetStateScript.Apply ⟨lc, name, false⟩ s d).2.all
      (fun c => !c.isLedger)) = true := by
  obtain ⟨cf⟩ := lc
  cases cf with
  | error e => rfl
  | ok contents =>
      by_cases he : isEmpty contents = true
      · simp [TargetStateScript.Apply, TargetStateScript.applyTail,
          TargetStateScript.Contents, lazyContents.Contents, he]
      · cases hr : s.runScriptErr name contents <;>
          simp [TargetStateScript.Apply, TargetStateScript.applyTail,
            TargetStateScript.Contents, lazyContents.Contents, he,
            sysRunScript, System.RunScript, hr, SysCall.isLedger]

/-- C10: TargetStateFile.Equal against a destination file whose permissions
differ returns false with a nil error for every pair of content sources —
including ones whose resolution would fail — so the permission comparison
short-circuits the checksum comparison and no content is read. -/
theorem file_equal_perm_short_circuit (lc : lazyContents) (p : Perm)
    (path : String) (dperm : Perm) (lcd : lazyContents) (h : dperm ≠ p) :
    TargetStateFile.Equal ⟨lc, p⟩ (DestStateEntry.file path dperm lcd) =
      Except.ok false := by
  simp [TargetStateFile.Equal, h]

/-- C10 witness: permissions 420 versus 384 with both content sources
failing still yields ok false. -/
theorem file_equal_perm_short_circuit_witness :
    TargetStateFile.Equal ⟨⟨Except.error "unread"⟩, 384⟩
      (DestStateEntry.file "f" 420 ⟨Except.error "unreadable dest"⟩) =
      Except.ok false :=
  file_equal_perm_short_circuit ⟨Except.error "unread"⟩ 384 "f" 420
    ⟨Except.error "unreadable dest"⟩ (by decide)

/-- C2: evaluation of TargetStateSymlink.Equal at a target whose own
linkname resolution fails and a destination symlink whose linkname
resolves: the code returns ok false, swallowing the resolution error
instead of propagating it. -/
theorem symlink_equal_swallows_target_linkname_error :
    TargetStateSymlink.Equal ⟨⟨Except.error "target linkname unreadable"⟩⟩
      (DestStateEntry.symlink "p" ⟨Except.ok "x"⟩) = Except.ok false := rfl

/-- C7: for a destination file whose checksum equals the target file's, a
permission difference makes Apply perform exactly one Chmod call (and no
WriteFile), and matching permissions make Apply perform no System call at
all. -/
theorem file_apply_checksum_match (t : TargetStateFile) (s : System)
    (path : String) (dperm : Perm) (lc : lazyContents) (cs : Bytes)
    (hd : lc.ContentsSHA256 = Except.ok cs)
    (ht : t.ContentsSHA256 = Except.ok cs) :
    (dperm ≠ t.perm →
      t.Apply s (DestStateEntry.file path dperm lc) =
        (s.Chmod path t.perm, [SysCall.chmod path t.perm])) ∧
    (dperm = t.perm →
      t.Apply s (DestStateEntry.file path dperm lc) = (Except.ok (), [])) := by
  have ht2 : t.contents_.ContentsSHA256 = Except.ok cs := ht
  constructor <;> intro h <;>
    simp [TargetStateFile.Apply, TargetStateFile.ContentsSHA256, hd, ht2, h, sysChmod]

/-- C7 witness: identical content, destination permissions 420, target
permissions 384 gives exactly one chmod; identical permissions give no
call. -/
theorem file_apply_checksum_match_witness :
    TargetStateFile.Apply ⟨⟨Except.ok [104, 105]⟩, 384⟩ okSystem
      (DestStateEntry.file "f" 420 ⟨Except.ok [104, 105]⟩) =
      (Except.ok (), [SysCall.chmod "f" 384]) ∧
    TargetStateFile.Apply ⟨⟨Except.ok [104, 105]⟩, 384⟩ okSystem
      (DestStateEntry.file "f" 384 ⟨Except.ok [104, 105]⟩) = (Except.ok (), []) :=
  ⟨(file_apply_checksum_match ⟨⟨Except.ok [104, 105]⟩, 384⟩ okSystem "f" 420
      ⟨Except.ok [104, 105]⟩ (sha256 [104, 105]) rfl rfl).1 (by decide),
   (file_apply_checksum_match ⟨⟨Except.ok [104, 105]⟩, 384⟩ okSystem "f" 384
      ⟨Except.ok [104, 105]⟩ (sha256 [104, 105]) rfl rfl).2 rfl⟩

/-- C4: for every target of variant Absent, Dir, File, or Symlink (not
Script) and every destination state, Equal returning true with no error
implies Apply performs no System call at all — in particular no WriteFile,
Chmod, Mkdir, RemoveAll, or WriteSymlink — and returns success. -/
theorem equal_implies_apply_noop (t : TargetStateEntry) (s : System)
    (d : DestStateEntry) (hscript : t.isScript = false)
    (heq : t.Equal d = Except.ok true) :
    t.Apply s d = (Except.ok (), []) := by
  cases t with
  | script ts => simp [TargetStateEntry.isScript] at hscript
  | absent ta =>
      cases d with
      | absent path => rfl
      | dir path perm => simp [TargetStateEntry.Equal, TargetStateAbsent.Equal] at heq
      | file path perm lc => simp [TargetStateEntry.Equal, TargetStateAbsent.Equal] at heq
      | symlink path ll => simp [TargetStateEntry.Equal, TargetStateAbsent.Equal] at heq
  | dir td =>
      cases d with
      | dir path perm =>
          simp only [TargetStateEntry.Equal, TargetStateDir.Equal, Except.ok.injEq,
            decide_eq_true_eq] at heq
          simp [TargetStateEntry.Apply, TargetStateDir.Apply, heq]
      | absent path => simp [TargetStateEntry.Equal, TargetStateDir.Equal] at heq
      | file path perm lc => simp [TargetStateEntry.Equal, TargetStateDir.Equal] at heq
      | symlink path ll => simp [TargetStateEntry.Equal, TargetStateDir.Equal] at heq
  | file tf =>
      cases d with
      | absent path => simp [TargetStateEntry.Equal, TargetStateFile.Equal] at heq
      | dir path perm => simp [TargetStateEntry.Equal, TargetStateFile.Equal] at heq
      | symlink path ll => simp [TargetStateEntry.Equal, TargetStateFile.Equal] at heq
      | file path perm lc =>
          obtain ⟨cf⟩ := lc
          obtain ⟨⟨tcf⟩, tperm⟩ := tf
          by_cases hp : perm = tperm
          · cases cf with
            | error e =>
                simp [TargetStateEntry.Equal, TargetStateFile.Equal,
                  TargetStateFile.ContentsSHA256, lazyContents.ContentsSHA256, hp] at heq
            | ok dbs =>
                cases tcf with
                | error e =>
                    simp [TargetStateEntry.Equal, TargetStateFile.Equal,
                      TargetStateFile.ContentsSHA256, lazyContents.ContentsSHA256, hp] at heq
                | ok tbs =>
                    simp only [TargetStateEntry.Equal, TargetStateFile.Equal,
                      TargetStateFile.ContentsSHA256, lazyContents.ContentsSHA256, hp,
                      ite_not, Except.ok.injEq, decide_eq_true_eq, if_true] at heq
                    simp [TargetStateEntry.Apply, TargetStateFile.Apply,
                      TargetStateFile.ContentsSHA256, lazyContents.ContentsSHA256, hp, heq]
          · simp [TargetStateEntry.Equal, TargetStateFile.Equal, hp] at heq
  | symlink tl =>
      cases d with
      | absent path => simp [TargetStateEntry.Equal, TargetStateSymlink.Equal] at heq
      | dir path perm => simp [TargetStateEntry.Equal, TargetStateSymlink.Equal] at heq
      | file path perm lc => simp [TargetStateEntry.Equal, TargetStateSymlink.Equal] at heq
      | symlink path ll =>
          obtain ⟨lf⟩ := ll
          obtain ⟨⟨tlf⟩⟩ := tl
          cases lf with
          | error e =>
              simp [TargetStateEntry.Equal, TargetStateSymlink.Equal,
                TargetStateSymlink.Linkname, lazyLinkname.Linkname] at heq
          | ok dl =>
              cases tlf with
              | error e =>
                  simp [TargetStateEntry.Equal, TargetStateSymlink.Equal,
                    TargetStateSymlink.Linkname, lazyLinkname.Linkname] at heq
              | ok l =>
                  simp only [TargetStateEntry.Equal, TargetStateSymlink.Equal,
                    TargetStateSymlink.Linkname, lazyLinkname.Linkname, Except.ok.injEq,
                    decide_eq_true_eq] at heq
                  simp [TargetStateEntry.Apply, TargetStateSymlink.Apply,
                    TargetStateSymlink.Linkname, lazyLinkname.Linkname, heq]

/-- C4 witness: a file target equal to the destination file (same content,
same permissions) applies with zero System calls. -/
theorem equal_implies_apply_noop_witness :
    TargetStateEntry.isScript
        (TargetStateEntry.file ⟨⟨Except.ok [104]⟩, 420⟩) = false ∧
    TargetStateEntry.Equal (TargetStateEntry.file ⟨⟨Except.ok [104]⟩, 420⟩)
        (DestStateEntry.file "f" 420 ⟨Except.ok [104]⟩) = Except.ok true ∧
    TargetStateEntry.Apply (TargetStateEntry.file ⟨⟨Except.ok [104]⟩, 420⟩) okSystem
        (DestStateEntry.file "f" 420 ⟨Except.ok [104]⟩) = (Except.ok (), []) :=
  ⟨rfl, by decide,
   equal_implies_apply_noop (TargetStateEntry.file ⟨⟨Except.ok [104]⟩, 420⟩) okSystem
     (DestStateEntry.file "f" 420 ⟨Except.ok [104]⟩) rfl (by decide)⟩

/-- The okSystem oracle with a once-ledger that already holds a record for
every key. -/
def ledgeredSystem : System :=
  { okSystem with getResult := fun _ _ => Except.ok (some "record") }

/-- The okSystem oracle whose ledger reads fail. -/
def errGetSystem : System :=
  { okSystem with getResult := fun _ _ => Except.error "ledger unavailable" }

/-- The okSystem oracle whose script execution fails. -/
def runFailSystem : System :=
  { okSystem with runScriptErr := fun _ _ => some "script failed" }

/-- The okSystem oracle whose ledger writes fail. -/
def setFailSystem : System :=
  { okSystem with setErr := fun _ _ _ => some "ledger write failed" }

/-- C1 counterexample: a target file and a destination file with differing
checksums — an entry exists at the destination, yet Apply issues no removal
call at all: the trace is exactly one WriteFile. -/
theorem file_apply_checksum_mismatch_no_removal :
    TargetStateFile.Apply ⟨⟨Except.ok [1]⟩, 420⟩ okSystem
        (DestStateEntry.file "f" 420 ⟨Except.ok [2]⟩) =
      (Except.ok (), [SysCall.writeFile "f" [1] 420]) ∧
    ((TargetStateFile.Apply ⟨⟨Except.ok [1]⟩, 420⟩ okSystem
        (DestStateEntry.file "f" 420 ⟨Except.ok [2]⟩)).2.all
      (fun c => !c.isRemoveAll)) = true := by
  constructor <;> rfl

/-- C1 (amended): when the destination is a file with a differing checksum
Apply writes the full target content directly with no preceding removal;
when the destination is neither a file nor absent it is removed first and
then written; when the destination is absent the write happens with no
removal call. -/
theorem file_apply_divergent_dest (t : TargetStateFile) (s : System) :
    (∀ (path : String) (dperm : Perm) (lc : lazyContents) (dbs bs : Bytes),
      lc.Contents = Except.ok dbs → t.Contents = Except.ok bs →
      sha256 dbs ≠ sha256 bs →
      t.Apply s (DestStateEntry.file path dperm lc) =
        (s.WriteFile path bs t.perm, [SysCall.writeFile path bs t.perm])) ∧
    (∀ d : DestStateEntry, d.isFile = false → d.isAbsent = false →
      ∀ bs : Bytes, t.Contents = Except.ok bs →
      s.removeAllErr d.Path = none →
      t.Apply s d =
        (s.WriteFile d.Path bs t.perm,
         [SysCall.removeAll d.Path, SysCall.writeFile d.Path bs t.perm])) ∧
    (∀ (path : String) (bs : Bytes), t.Contents = Except.ok bs →
      t.Apply s (DestStateEntry.absent path) =
        (s.WriteFile path bs t.perm, [SysCall.writeFile path bs t.perm])) := by
  refine ⟨?_, ?_, ?_⟩
  · intro path dperm lc dbs bs hd hc hne
    have hdsha : lc.ContentsSHA256 = Except.ok (sha256 dbs) :=
      lazyContents.sha256_of_contents lc dbs hd
    have htsha : t.ContentsSHA256 = Except.ok (sha256 bs) :=
      lazyContents.sha256_of_contents t.contents_ bs hc
    have htsha2 : t.contents_.ContentsSHA256 = Except.ok (sha256 bs) := htsha
    have hc2 : t.contents_.Contents = Except.ok bs := hc
    simp [TargetStateFile.Apply, TargetStateFile.ContentsSHA256,
      TargetStateFile.Contents, hdsha, htsha2, hc2, hne, sysWriteFile]
  · intro d hf ha bs hc hr
    have hc2 : t.contents_.Contents = Except.ok bs := hc
    cases d with
    | absent path => simp [DestStateEntry.isAbsent] at ha
    | file path perm lc => simp [DestStateEntry.isFile] at hf
    | dir path perm =>
        simp only [DestStateEntry.Path] at hr
        simp [TargetStateFile.Apply, TargetStateFile.Contents, DestStateEntry.Remove,
          DestStateEntry.Path, sysRemoveAll, System.RemoveAll, hr, hc2, sysWriteFile]
    | symlink path ll =>
        simp only [DestStateEntry.Path] at hr
        simp [TargetStateFile.Apply, TargetStateFile.Contents, DestStateEntry.Remove,
          DestStateEntry.Path, sysRemoveAll, System.RemoveAll, hr, hc2, sysWriteFile]
  · intro path bs hc
    have hc2 : t.contents_.Contents = Except.ok bs := hc
    simp [TargetStateFile.Apply, TargetStateFile.Contents, DestStateEntry.Remove,
      DestStateEntry.Path, hc2, sysWriteFile]

/-- C1 amended witness: the three divergent shapes at concrete inputs —
file destination with differing content (direct overwrite), dir destination
(remove then write), absent destination (write only). -/
theorem file_apply_divergent_dest_witness :
    TargetStateFile.Apply ⟨⟨Except.ok [1]⟩, 420⟩ okSystem
        (DestStateEntry.file "f" 493 ⟨Except.ok [2]⟩) =
      (Except.ok (), [SysCall.writeFile "f" [1] 420]) ∧
    TargetStateFile.Apply ⟨⟨Except.ok [1]⟩, 420⟩ okSystem
        (DestStateEntry.dir "g" 493) =
      (Except.ok (), [SysCall.removeAll "g", SysCall.writeFile "g" [1] 420]) ∧
    TargetStateFile.Apply ⟨⟨Except.ok [1]⟩, 420⟩ okSystem
        (DestStateEntry.absent "h") =
      (Except.ok (), [SysCall.writeFile "h" [1] 420]) :=
  ⟨(file_apply_divergent_dest ⟨⟨Except.ok [1]⟩, 420⟩ okSystem).1 "f" 493
      ⟨Except.ok [2]⟩ [2] [1] rfl rfl (by decide),
   (file_apply_divergent_dest ⟨⟨Except.ok [1]⟩, 420⟩ okSystem).2.1
      (DestStateEntry.dir "g" 493) rfl rfl [1] rfl rfl,
   (file_apply_divergent_dest ⟨⟨Except.ok [1]⟩, 420⟩ okSystem).2.2 "h" [1] rfl⟩

/-- C3: for a once-script, Apply derives the key name + ":" + hex(SHA-256
of content) and queries the ledger.  With an empty ledger and a successful
run, the trace is exactly Get, RunScript, then Set of the {name,
executedAt} record under that same key; against a ledger that already
holds a record under the key — as after the first Apply — the trace is
exactly the Get: zero executions and zero ledger writes. -/
theorem script_once_idempotency (t : TargetStateScript) (s1 s2 : System)
    (d1 d2 : DestStateEntry) (bs : Bytes) (v : String)
    (honce : t.once = true) (hc : t.Contents = Except.ok bs)
    (hne : isEmpty bs = false) :
    (s1.getResult scriptOnceStateBucket
        (TargetStateScript.onceKey t.name (sha256 bs)) = Except.ok none →
     s1.runScriptErr t.name bs = none →
     s1.setErr scriptOnceStateBucket
        (TargetStateScript.onceKey t.name (sha256 bs))
        (scriptOnceState.marshal ⟨t.name, s1.now⟩) = none →
     t.Apply s1 d1 = (Except.ok (),
       [SysCall.get scriptOnceStateBucket
          (TargetStateScript.onceKey t.name (sha256 bs)),
        SysCall.runScript t.name bs,
        SysCall.set scriptOnceStateBucket
          (TargetStateScript.onceKey t.name (sha256 bs))
          (scriptOnceState.marshal ⟨t.name, s1.now⟩)])) ∧
    (s2.getResult scriptOnceStateBucket
        (TargetStateScript.onceKey t.name (sha256 bs)) = Except.ok (some v) →
     t.Apply s2 d2 = (Except.ok (),
       [SysCall.get scriptOnceStateBucket
          (TargetStateScript.onceKey t.name (sha256 bs))])) := by
  obtain ⟨⟨cf⟩, name, once⟩ := t
  have honce2 : once = true := honce
  subst honce2
  have hcf : cf = Except.ok bs := hc
  subst hcf
  constructor
  · intro hg hr hs
    simp only [TargetStateScript.onceKey] at hg hr hs
    simp [TargetStateScript.Apply, TargetStateScript.applyTail,
      TargetStateScript.Contents, TargetStateScript.ContentsSHA256,
      lazyContents.Contents, lazyContents.ContentsSHA256,
      TargetStateScript.onceKey, sysGet, sysRunScript, sysSet,
      System.RunScript, System.Set, hg, hr, hs, hne]
  · intro hg
    simp only [TargetStateScript.onceKey] at hg
    simp [TargetStateScript.Apply, TargetStateScript.Contents,
      TargetStateScript.ContentsSHA256, lazyContents.Contents,
      lazyContents.ContentsSHA256, TargetStateScript.onceKey, sysGet, hg]

/-- C3 witness: name "setup", content bytes of "hi": a first Apply against
an empty ledger runs and records; an Apply against a ledger holding the
record performs only the Get. -/
theorem script_once_idempotency_witness :
    TargetStateScript.Apply ⟨⟨Except.ok [104, 105]⟩, "setup", true⟩ okSystem
        (DestStateEntry.absent "p") =
      (Except.ok (),
       [SysCall.get scriptOnceStateBucket
          (TargetStateScript.onceKey "setup" (sha256 [104, 105])),
        SysCall.runScript "setup" [104, 105],
        SysCall.set scriptOnceStateBucket
          (TargetStateScript.onceKey "setup" (sha256 [104, 105]))
          (scriptOnceState.marshal ⟨"setup", 0⟩)]) ∧
    TargetStateScript.Apply ⟨⟨Except.ok [104, 105]⟩, "setup", true⟩ ledgeredSystem
        (DestStateEntry.absent "p") =
      (Except.ok (),
       [SysCall.get scriptOnceStateBucket
          (TargetStateScript.onceKey "setup" (sha256 [104, 105]))]) :=
  ⟨(script_once_idempotency ⟨⟨Except.ok [104, 105]⟩, "setup", true⟩ okSystem
      ledgeredSystem (DestStateEntry.absent "p") (DestStateEntry.absent "p")
      [104, 105] "record" rfl rfl (by decide)).1 rfl rfl rfl,
   (script_once_idempotency ⟨⟨Except.ok [104, 105]⟩, "setup", true⟩ okSystem
      ledgeredSystem (DestStateEntry.absent "p") (DestStateEntry.absent "p")
      [104, 105] "record" rfl rfl (by decide)).2 rfl⟩

/-- C5 counterexample: a whitespace-only script with once = true against a
System whose ledger read fails — Apply returns the ledger error instead of
success, because the once-ledger is queried before the content is ever
examined. -/
theorem script_empty_once_get_error :
    isEmpty [32, 10, 9] = true ∧
    TargetStateScript.Apply ⟨⟨Except.ok [32, 10, 9]⟩, "n", true⟩ errGetSystem
        (DestStateEntry.absent "p") =
      (Except.error "ledger unavailable",
       [SysCall.get scriptOnceStateBucket
          (TargetStateScript.onceKey "n" (sha256 [32, 10, 9]))]) :=
  ⟨rfl, rfl⟩

/-- C5 (amended): a script whose content is empty or whitespace-only after
trimming never invokes script execution and never writes a ledger record;
Apply returns success, except that when once = true a failing ledger query
surfaces that error (still with no execution and no ledger write). -/
theorem script_empty_skip (t : TargetStateScript) (s : System)
    (d : DestStateEntry) (bs : Bytes)
    (hc : t.Contents = Except.ok bs) (he : isEmpty bs = true) :
    ((t.Apply s d).2.all (fun c => !c.isRunScript && !c.isSet)) = true ∧
    (t.once = true → ∀ r,
      s.getResult scriptOnceStateBucket
        (TargetStateScript.onceKey t.name (sha256 bs)) = Except.ok r →
      t.Apply s d = (Except.ok (),
        [SysCall.get scriptOnceStateBucket
           (TargetStateScript.onceKey t.name (sha256 bs))])) ∧
    (t.once = false → t.Apply s d = (Except.ok (), [])) := by
  obtain ⟨⟨cf⟩, name, once⟩ := t
  have hcf : cf = Except.ok bs := hc
  subst hcf
  refine ⟨?_, ?_, ?_⟩
  · cases once with
    | false =>
        simp [TargetStateScript.Apply, TargetStateScript.applyTail,
          TargetStateScript.Contents, lazyContents.Contents, he]
    | true =>
        rcases hg : s.getResult scriptOnceStateBucket
            (TargetStateScript.onceKey name (sha256 bs)) with e | r
        · simp [TargetStateScript.Apply, TargetStateScript.Contents,
            TargetStateScript.ContentsSHA256, lazyContents.Contents,
            lazyContents.ContentsSHA256, TargetStateScript.onceKey, sysGet,
            TargetStateScript.onceKey] at hg ⊢
          simp [hg, SysCall.isRunScript, SysCall.isSet]
        · cases r with
          | none =>
              simp only [TargetStateScript.onceKey] at hg
              simp [TargetStateScript.Apply, TargetStateScript.applyTail,
                TargetStateScript.Contents, TargetStateScript.ContentsSHA256,
                lazyContents.Contents, lazyContents.ContentsSHA256,
                TargetStateScript.onceKey, sysGet, hg, he,
                SysCall.isRunScript, SysCall.isSet]
          | some v =>
              simp only [TargetStateScript.onceKey] at hg
              simp [TargetStateScript.Apply, TargetStateScript.Contents,
                TargetStateScript.ContentsSHA256, lazyContents.Contents,
                lazyContents.ContentsSHA256, TargetStateScript.onceKey, sysGet, hg,
                SysCall.isRunScript, SysCall.isSet]
  · intro honce r hg
    have honce2 : once = true := honce
    subst honce2
    simp only [TargetStateScript.onceKey] at hg
    cases r with
    | none =>
        simp [TargetStateScript.Apply, TargetStateScript.applyTail,
          TargetStateScript.Contents, TargetStateScript.ContentsSHA256,
          lazyContents.Contents, lazyContents.ContentsSHA256,
          TargetStateScript.onceKey, sysGet, hg, he]
    | some v =>
        simp [TargetStateScript.Apply, TargetStateScript.Contents,
          TargetStateScript.ContentsSHA256, lazyContents.Contents,
          lazyContents.ContentsSHA256, TargetStateScript.onceKey, sysGet, hg]
  · intro honce
    have honce2 : once = false := honce
    subst honce2
    simp [TargetStateScript.Apply, TargetStateScript.applyTail,
      TargetStateScript.Contents, lazyContents.Contents, he]

/-- C5 amended witness: the whitespace-only script "   \n\t" at once = true
with a readable empty ledger, and at once = false, both succeed with no
execution and no ledger write. -/
theorem script_empty_skip_witness :
    ((TargetStateScript.Apply ⟨⟨Except.ok [32, 10, 9]⟩, "n", true⟩ errGetSystem
        (DestStateEntry.absent "p")).2.all
      (fun c => !c.isRunScript && !c.isSet)) = true ∧
    TargetStateScript.Apply ⟨⟨Except.ok [32, 10, 9]⟩, "n", true⟩ okSystem
        (DestStateEntry.absent "p") =
      (Except.ok (),
       [SysCall.get scriptOnceStateBucket
          (TargetStateScript.onceKey "n" (sha256 [32, 10, 9]))]) ∧
    TargetStateScript.Apply ⟨⟨Except.ok [32, 10, 9]⟩, "n", false⟩ okSystem
        (DestStateEntry.absent "p") = (Except.ok (), []) :=
  ⟨(script_empty_skip ⟨⟨Except.ok [32, 10, 9]⟩, "n", true⟩ errGetSystem
      (DestStateEntry.absent "p") [32, 10, 9] rfl rfl).1,
   (script_empty_skip ⟨⟨Except.ok [32, 10, 9]⟩, "n", true⟩ okSystem
      (DestStateEntry.absent "p") [32, 10, 9] rfl rfl).2.1 rfl none rfl,
   (script_empty_skip ⟨⟨Except.ok [32, 10, 9]⟩, "n", false⟩ okSystem
      (DestStateEntry.absent "p") [32, 10, 9] rfl rfl).2.2 rfl⟩

/-- C6: when RunScript fails Apply returns that error and performs no
ledger write even when once = true (the failure trace holds no Set call);
when the run succeeds with once = true and the ledger Set fails, Apply
returns the Set error after the recorded execution. -/
theorem script_error_surfacing (t : TargetStateScript) (s : System)
    (d : DestStateEntry) (bs : Bytes) (e : Error)
    (hc : t.Contents = Except.ok bs) (hne : isEmpty bs = false) :
    (s.runScriptErr t.name bs = some e →
      (t.once = false →
        t.Apply s d = (Except.error e, [SysCall.runScript t.name bs])) ∧
      (t.once = true →
        s.getResult scriptOnceStateBucket
          (TargetStateScript.onceKey t.name (sha256 bs)) = Except.ok none →
        t.Apply s d = (Except.error e,
          [SysCall.get scriptOnceStateBucket
             (TargetStateScript.onceKey t.name (sha256 bs)),
           SysCall.runScript t.name bs]))) ∧
    (s.runScriptErr t.name bs = none → t.once = true →
      s.getResult scriptOnceStateBucket
        (TargetStateScript.onceKey t.name (sha256 bs)) = Except.ok none →
      s.setErr scriptOnceStateBucket
        (TargetStateScript.onceKey t.name (sha256 bs))
        (scriptOnceState.marshal ⟨t.name, s.now⟩) = some e →
      t.Apply s d = (Except.error e,
        [SysCall.get scriptOnceStateBucket
           (TargetStateScript.onceKey t.name (sha256 bs)),
         SysCall.runScript t.name bs,
         SysCall.set scriptOnceStateBucket
           (TargetStateScript.onceKey t.name (sha256 bs))
           (scriptOnceState.marshal ⟨t.name, s.now⟩)])) := by
  obtain ⟨⟨cf⟩, name, once⟩ := t
  have hcf : cf = Except.ok bs := hc
  subst hcf
  constructor
  · intro hr
    constructor
    · intro honce
      have honce2 : once = false := honce
      subst honce2
      simp [TargetStateScript.Apply, TargetStateScript.applyTail,
        TargetStateScript.Contents, lazyContents.Contents, hne,
        sysRunScript, System.RunScript, hr]
    · intro honce hg
      have honce2 : once = true := honce
      subst honce2
      simp only [TargetStateScript.onceKey] at hg
      simp [TargetStateScript.Apply, TargetStateScript.applyTail,
        TargetStateScript.Contents, TargetStateScript.ContentsSHA256,
        lazyContents.Contents, lazyContents.ContentsSHA256,
        TargetStateScript.onceKey, sysGet, hg, hne,
        sysRunScript, System.RunScript, hr]
  · intro hr honce hg hs
    have honce2 : once = true := honce
    subst honce2
    simp only [TargetStateScript.onceKey] at hg hs
    simp [TargetStateScript.Apply, TargetStateScript.applyTail,
      TargetStateScript.Contents, TargetStateScript.ContentsSHA256,
      lazyContents.Contents, lazyContents.ContentsSHA256,
      TargetStateScript.onceKey, sysGet, hg, hne,
      sysRunScript, System.RunScript, hr, sysSet, System.Set, hs]

/-- C6 witness: a failing run at once = false and once = true (no Set in
either trace), and a failing ledger Set after a successful once run. -/
theorem script_error_surfacing_witness :
    TargetStateScript.Apply ⟨⟨Except.ok [104]⟩, "n", false⟩ runFailSystem
        (DestStateEntry.absent "p") =
      (Except.error "script failed", [SysCall.runScript "n" [104]]) ∧
    TargetStateScript.Apply ⟨⟨Except.ok [104]⟩, "n", true⟩ runFailSystem
        (DestStateEntry.absent "p") =
      (Except.error "script failed",
       [SysCall.get scriptOnceStateBucket
          (TargetStateScript.onceKey "n" (sha256 [104])),
        SysCall.runScript "n" [104]]) ∧
    TargetStateScript.Apply ⟨⟨Except.ok [104]⟩, "n", true⟩ setFailSystem
        (DestStateEntry.absent "p") =
      (Except.error "ledger write failed",
       [SysCall.get scriptOnceStateBucket
          (TargetStateScript.onceKey "n" (sha256 [104])),
        SysCall.runScript "n" [104],
        SysCall.set scriptOnceStateBucket
          (TargetStateScript.onceKey "n" (sha256 [104]))
          (scriptOnceState.marshal ⟨"n", 0⟩)]) :=
  ⟨((script_error_surfacing ⟨⟨Except.ok [104]⟩, "n", false⟩ runFailSystem
      (DestStateEntry.absent "p") [104] "script failed" rfl rfl).1 rfl).1 rfl,
   ((script_error_surfacing ⟨⟨Except.ok [104]⟩, "n", true⟩ runFailSystem
      (DestStateEntry.absent "p") [104] "script failed" rfl rfl).1 rfl).2 rfl rfl,
   (script_error_surfacing ⟨⟨Except.ok [104]⟩, "n", true⟩ setFailSystem
      (DestStateEntry.absent "p") [104] "ledger write failed" rfl rfl).2
     rfl rfl rfl rfl⟩

end Chezmoi
